import Mathlib

/-!
Shallow embedding of the developer-facing validation subsystem of SpiceDB:
the found-subject model (`developmentmembership` package), the sandbox
builder (`pkg/development/devcontext.go`), and the error classifier
(`distinguishGraphError` / `rewriteACLError`).

External collaborators (schema compiler, type-system validators, tuple
validation, the storage engine's transactional discipline) are modelled as
oracles carried on the input values, per the interface boundaries of the
spec; everything else is translated directly from the Go source.
-/

namespace SpiceDB

/-- ObjectAndRelation (ONR): the identity triple
{namespace, objectId, relation} from `core.ObjectAndRelation`.
Equality is structural. -/
structure ObjectAndRelation where
  Namespace : String
  ObjectId : String
  Relation : String
deriving DecidableEq, Repr

/-- The reserved wildcard object-id marker, `tuple.PublicWildcard` ("*"). -/
def PublicWildcard : String := "*"

/-- An opaque caveat expression (`v1.CaveatExpression`): a boolean formula
over named caveats. The core never evaluates it; it only attaches and
OR-combines expressions. -/
inductive CaveatExpression where
  | leaf (name : String)
  | or (l r : CaveatExpression)
deriving DecidableEq, Repr

/-- FoundSubject from `developmentmembership`: a single found subject with
its exclusions (meaningful only for a wildcard subject), its optional
caveat expression (`none` = unconditional), and the provenance
relationships that located it. Nested inductive because excluded subjects
are themselves FoundSubjects. -/
inductive FoundSubject where
  | mk (subject : ObjectAndRelation)
       (excludedSubjects : List FoundSubject)
       (caveatExpression : Option CaveatExpression)
       (relationships : List ObjectAndRelation)

/-- The `subject` field of a FoundSubject. -/
def FoundSubject.subject : FoundSubject → ObjectAndRelation
  | .mk s _ _ _ => s

/-- The `excludedSubjects` field of a FoundSubject. -/
def FoundSubject.excludedSubjects : FoundSubject → List FoundSubject
  | .mk _ e _ _ => e

/-- The `caveatExpression` field of a FoundSubject. -/
def FoundSubject.caveatExpression : FoundSubject → Option CaveatExpression
  | .mk _ _ c _ => c

/-- The `relationships` field of a FoundSubject. -/
def FoundSubject.relationships : FoundSubject → List ObjectAndRelation
  | .mk _ _ _ r => r

/-- `NewFoundSubject`: constructs an unconditional finding with the given
provenance ONRs and no exclusions. -/
def NewFoundSubject (subject : ObjectAndRelation)
    (resources : List ObjectAndRelation) : FoundSubject :=
  .mk subject [] none resources

/-- `FoundSubject.GetSubjectId`: named to match the Subject interface for
the BaseSubjectSet; returns the subject's object id. -/
def FoundSubject.GetSubjectId (fs : FoundSubject) : String :=
  fs.subject.ObjectId

/-- `FoundSubject.WildcardType`: the wildcard's namespace and true when the
subject is a wildcard, else ("", false). -/
def FoundSubject.WildcardType (fs : FoundSubject) : String × Bool :=
  if fs.subject.ObjectId = PublicWildcard then (fs.subject.Namespace, true)
  else ("", false)

/-- Helper for `ExcludedSubjectsFromWildcard`: walks the excluded entries in
order, collecting their subject ONRs; the Go loop panics on the first entry
carrying a caveat expression, modelled here as `none`. -/
def collectExcludedONRs : List FoundSubject → Option (List ObjectAndRelation)
  | [] => some []
  | e :: rest =>
    if e.caveatExpression.isSome then none
    else (collectExcludedONRs rest).map (e.subject :: ·)

/-- `FoundSubject.ExcludedSubjectsFromWildcard`: for a wildcard subject,
the list of excluded subject ONRs and true; for a non-wildcard subject, the
empty list and false. The Go code panics ("not yet supported") when an
excluded entry carries a caveat expression; the panic is modelled as
`none`. -/
def FoundSubject.ExcludedSubjectsFromWildcard (fs : FoundSubject) :
    Option (List ObjectAndRelation × Bool) :=
  if fs.subject.ObjectId = PublicWildcard then
    (collectExcludedONRs fs.excludedSubjects).map (·, true)
  else
    some ([], false)

/-- Modelled from the spec: `tuple.StringONR` is not under src; the spec
states the canonical rendering of an ONR is `namespace:objectId#relation`. -/
def StringONR (onr : ObjectAndRelation) : String :=
  onr.Namespace ++ ":" ++ onr.ObjectId ++ "#" ++ onr.Relation

/-- Embeds Go's `sort.Strings`: sorts a list of strings lexicographically
(ascending). -/
def sortStrings (l : List String) : List String :=
  List.insertionSort (· ≤ ·) l

/-- `FoundSubject.ToValidationString`: renders the subject ONR, appending
` - \x7bsorted excluded ONRs\x7d` for a wildcard with exclusions. The Go code
panics when the subject carries a caveat expression (and, via
`ExcludedSubjectsFromWildcard`, when any excluded entry does); both panics
are modelled as `none`. -/
def FoundSubject.ToValidationString (fs : FoundSubject) : Option String :=
  if fs.caveatExpression.isSome then none
  else
    let onrString := StringONR fs.subject
    match fs.ExcludedSubjectsFromWildcard with
    | none => none
    | some (excluded, isWildcard) =>
      if isWildcard ∧ excluded ≠ [] then
        some (onrString ++ " - \x7b" ++
          String.intercalate ", " (sortStrings (excluded.map StringONR)) ++ "\x7d")
      else
        some onrString

/-! ### Subject Tracking Set (merge semantics)

The `TrackingSubjectSet` implementation itself is not under src (only
`FoundSubject.GetSubjectId`, its key contribution, and the `FoundSubjects`
wrapper are), so the set and its merge rules are modelled from the spec. -/

/-- Modelled from the spec: caveat-expression merge — "logical OR of the
two (if either is unconditional/null, the merged result is unconditional)". -/
def caveatOr : Option CaveatExpression → Option CaveatExpression →
    Option CaveatExpression
  | none, _ => none
  | _, none => none
  | some a, some b => some (.or a b)

/-- Modelled from the spec: exclusion-set merge for wildcard subjects — the
intersection of the two exclusion sets by subject identity. -/
def intersectExcluded (l1 l2 : List FoundSubject) : List FoundSubject :=
  l1.filter (fun x => l2.any (fun y => decide (y.subject = x.subject)))

/-- Modelled from the spec: provenance-relationship merge — union. -/
def unionRelationships (l1 l2 : List ObjectAndRelation) :
    List ObjectAndRelation :=
  l1 ++ l2.filter (fun x => !l1.any (fun y => decide (y = x)))

/-- Modelled from the spec: merging two FoundSubjects for the same subject
key — relationships union, caveat OR with unconditional dominating,
exclusion intersection by subject identity. -/
def mergeFoundSubjects (a b : FoundSubject) : FoundSubject :=
  .mk a.subject (intersectExcluded a.excludedSubjects b.excludedSubjects)
    (caveatOr a.caveatExpression b.caveatExpression)
    (unionRelationships a.relationships b.relationships)

/-- Modelled from the spec: the Subject Tracking Set, a set-like collection
keyed by subject identity (namespace+objectId+relation of the `subject`
field); the objectId component of the key is supplied by the src function
`FoundSubject.GetSubjectId`. -/
abbrev TrackingSubjectSet : Type := List FoundSubject

/-- Modelled from the spec: the full identity key of a tracked entry — the
subject's namespace and relation together with `GetSubjectId` (its object
id); no other field participates. -/
def trackedKey (fs : FoundSubject) : String × String × String :=
  (fs.subject.Namespace, fs.GetSubjectId, fs.subject.Relation)

/-- Modelled from the spec: `add` inserts a FoundSubject, merging with any
existing entry of the same key. -/
def TrackingSubjectSet.add (s : TrackingSubjectSet) (fs : FoundSubject) :
    TrackingSubjectSet :=
  if s.any (fun e => decide (trackedKey e = trackedKey fs)) then
    s.map (fun e => if trackedKey e = trackedKey fs
                    then mergeFoundSubjects e fs else e)
  else
    s ++ [fs]

/-- Modelled from the spec: lookup by subject key. -/
def TrackingSubjectSet.get (s : TrackingSubjectSet)
    (subject : ObjectAndRelation) : Option FoundSubject :=
  s.find? (fun e => decide (e.subject = subject))

/-- Two FoundSubjects land in the same entry of the Subject Tracking Set:
starting from the empty set, adding both leaves a single (merged) entry. -/
def sameTrackedEntry (a b : FoundSubject) : Prop :=
  (TrackingSubjectSet.add (TrackingSubjectSet.add ([] : TrackingSubjectSet) a) b).length = 1

/-! ### Error classifier (`distinguishGraphError` / `rewriteACLError`) -/

/-- `devinterface.DeveloperError_Source` (the values used by this
subsystem). -/
inductive DeveloperErrorSource where
  | UNKNOWN_SOURCE
  | SCHEMA
  | RELATIONSHIP
deriving DecidableEq, Repr

/-- `devinterface.DeveloperError_ErrorKind` (the values used by this
subsystem). -/
inductive DeveloperErrorKind where
  | UNKNOWN_KIND
  | PARSE_ERROR
  | SCHEMA_ISSUE
  | UNKNOWN_OBJECT_TYPE
  | UNKNOWN_RELATION
  | MAXIMUM_RECURSION
deriving DecidableEq, Repr

/-- `devinterface.DeveloperError`: a structured developer-facing
diagnostic. -/
structure DeveloperError where
  Message : String
  Source : DeveloperErrorSource
  Kind : DeveloperErrorKind
  Line : Nat
  Column : Nat
  Context : String
deriving DecidableEq, Repr

/-- The known dispatch/traversal error categories consumed by the
classifier: `dispatch.ErrMaxDepth`, `sharederrors.UnknownNamespaceError`,
`sharederrors.UnknownRelationError`, `invalidRelationError`,
`maingraph.ErrRequestCanceled`, `maingraph.ErrInvalidArgument`,
`datastore.ErrInvalidRevision`, `maingraph.ErrRelationMissingTypeInfo`,
and the internal sentinel `maingraph.ErrAlwaysFail`. -/
inductive GraphError where
  | maxDepth
  | unknownNamespace (name : String)
  | unknownRelation (name : String)
  | invalidRelation (msg : String)
  | requestCanceled
  | invalidArgument (msg : String)
  | invalidRevision
  | relationMissingTypeInfo
  | alwaysFail
deriving DecidableEq, Repr

/-- The `Error()` message of each dispatch error (opaque; only threaded
through into diagnostics). -/
def GraphError.message : GraphError → String
  | .maxDepth => "max depth exceeded"
  | .unknownNamespace name => "object definition `" ++ name ++ "` not found"
  | .unknownRelation name => "relation `" ++ name ++ "` not found"
  | .invalidRelation msg => msg
  | .requestCanceled => "request canceled"
  | .invalidArgument msg => msg
  | .invalidRevision => "revision unknown"
  | .relationMissingTypeInfo => "relation missing type information"
  | .alwaysFail => "always fail"

/-- The transport status codes produced by `rewriteACLError`. -/
inductive StatusCode where
  | Canceled
  | InvalidArgument
  | OutOfRange
  | FailedPrecondition
  | Internal
deriving DecidableEq, Repr

/-- The infrastructural outcome of `rewriteACLError`: a transport status
error, or the original error propagated unchanged. -/
inductive RewrittenError where
  | status (code : StatusCode) (msg : String)
  | passthrough (e : GraphError)
deriving DecidableEq, Repr

/-- `rewriteACLError`: maps a non-developer error to a transport status;
unknown namespace/relation fall through to "canceled" alongside request
cancellation; anything unrecognized is logged and propagated unchanged. -/
def rewriteACLError : GraphError → RewrittenError
  | .unknownNamespace name =>
    .status .Canceled ("request canceled: " ++ (GraphError.unknownNamespace name).message)
  | .unknownRelation name =>
    .status .Canceled ("request canceled: " ++ (GraphError.unknownRelation name).message)
  | .requestCanceled =>
    .status .Canceled ("request canceled: " ++ GraphError.requestCanceled.message)
  | .invalidArgument msg => .status .InvalidArgument msg
  | .invalidRevision =>
    .status .OutOfRange ("invalid zookie: " ++ GraphError.invalidRevision.message)
  | .relationMissingTypeInfo =>
    .status .FailedPrecondition
      ("failed precondition: " ++ GraphError.relationMissingTypeInfo.message)
  | .alwaysFail => .status .Internal ("internal error: " ++ GraphError.alwaysFail.message)
  | .invalidRelation msg => .status .InvalidArgument msg
  | .maxDepth => .passthrough .maxDepth

/-- `distinguishGraphError`: turns a dispatch error into either a
developer-facing DeveloperError or an infrastructural error, checking the
developer-actionable categories in the source's order (max-depth, unknown
namespace, unknown relation, invalid relation reference) and delegating
everything else to `rewriteACLError`. -/
def distinguishGraphError (dispatchError : GraphError)
    (source : DeveloperErrorSource) (line column : Nat) (context : String) :
    Option DeveloperError × Option RewrittenError :=
  match dispatchError with
  | .maxDepth =>
    (some ⟨dispatchError.message, source, .MAXIMUM_RECURSION, line, column, context⟩, none)
  | .unknownNamespace _ =>
    (some ⟨dispatchError.message, source, .UNKNOWN_OBJECT_TYPE, line, column, context⟩, none)
  | .unknownRelation _ =>
    (some ⟨dispatchError.message, source, .UNKNOWN_RELATION, line, column, context⟩, none)
  | .invalidRelation _ =>
    (some ⟨dispatchError.message, source, .UNKNOWN_RELATION, line, column, context⟩, none)
  | e => (none, some (rewriteACLError e))

/-! ### Sandbox builder (`NewDevContext` / `newDevContextWithDatastore`)

The external validators (`namespace.ValidateCaveatDefinition`,
`namespace.NewNamespaceTypeSystem`, `TypeSystem.Validate`,
`RelationTuple.Validate`, `validateTupleWrite`, `RequestContext.Validate`,
the schema compiler) are collaborators outside this subsystem; their
outcomes are modelled as oracle fields carried on the input values. The
in-memory datastore's writes inside a healthy transaction are modelled as
succeeding; `ReadWriteTx` commits the transaction's writes exactly when
the transaction function returns no error, per the storage interface. -/

/-- An error with an optional source location, as produced by the schema
validators (`spiceerrors.AsErrorWithSource` succeeds exactly when the
location triple is present: source text snippet, line, column). -/
structure SourceErr where
  msg : String
  sourceCode : Option (String × Nat × Nat)
deriving DecidableEq, Repr

/-- A caveat definition together with the oracle outcome of
`namespace.ValidateCaveatDefinition` (`none` = valid). -/
structure CaveatDef where
  Name : String
  validationResult : Option SourceErr
deriving DecidableEq, Repr

/-- A namespace (object type) definition together with the oracle outcomes
of `namespace.NewNamespaceTypeSystem` and `TypeSystem.Validate`
(`none` = success). -/
structure NamespaceDef where
  Name : String
  typeSystemResult : Option SourceErr
  validationResult : Option SourceErr
deriving DecidableEq, Repr

/-- Builds the SCHEMA/SCHEMA_ISSUE developer error recorded by
`loadCompiled` for a failed caveat or namespace validation: source
location and snippet when the error is traceable to source text, else the
definition's name as context. -/
def schemaDevError (e : SourceErr) (defName : String) : DeveloperError :=
  match e.sourceCode with
  | some (src, ln, col) => ⟨e.msg, .SCHEMA, .SCHEMA_ISSUE, ln, col, src⟩
  | none => ⟨e.msg, .SCHEMA, .SCHEMA_ISSUE, 0, 0, defName⟩

/-- The caveat loop of `loadCompiled`: valid caveats are written to the
transaction as they are encountered; each invalid caveat records one
developer error and the scan continues. Returns (accumulated developer
errors, caveats written to the transaction). -/
def loadCaveats : List CaveatDef → List DeveloperError × List CaveatDef
  | [] => ([], [])
  | c :: rest =>
    let (errs, written) := loadCaveats rest
    match c.validationResult with
    | none => (errs, c :: written)
    | some e => (schemaDevError e c.Name :: errs, written)

/-- The namespace loop of `loadCompiled`: for each namespace definition the
type system is built and validated; on success the namespace is written to
the transaction, on failure (at either stage) one developer error is
recorded and the scan continues. Returns (accumulated developer errors,
namespaces written to the transaction). -/
def loadNamespaces : List NamespaceDef → List DeveloperError × List NamespaceDef
  | [] => ([], [])
  | ns :: rest =>
    let (errs, written) := loadNamespaces rest
    match ns.typeSystemResult with
    | some e => (schemaDevError e ns.Name :: errs, written)
    | none =>
      match ns.validationResult with
      | some e => (schemaDevError e ns.Name :: errs, written)
      | none => (errs, ns :: written)

/-- `compiler.CompiledSchema`: the caveat and object (namespace)
definitions produced by the external schema compiler. -/
structure CompiledSchema where
  CaveatDefinitions : List CaveatDef
  ObjectDefinitions : List NamespaceDef
deriving DecidableEq, Repr

/-- `loadCompiled`: loads a compiled schema's caveats then namespaces into
the transaction, accumulating developer errors across independent entries.
Returns (developer errors, caveats written, namespaces written). -/
def loadCompiled (compiled : CompiledSchema) :
    List DeveloperError × List CaveatDef × List NamespaceDef :=
  let (cerrs, wc) := loadCaveats compiled.CaveatDefinitions
  let (nerrs, wn) := loadNamespaces compiled.ObjectDefinitions
  (cerrs ++ nerrs, wc, wn)

/-- A test relationship (`core.RelationTuple`) together with the oracle
outcomes of its structural validation `tpl.Validate()` and of the
write-time simulation `validateTupleWrite` (`none` = success);
`tupleString` is `tuple.String(tpl)`, used as error context. -/
structure RelTuple where
  tupleString : String
  validateResult : Option String
  writeResult : Option GraphError
deriving DecidableEq, Repr

/-- The RELATIONSHIP/PARSE_ERROR developer error recorded by `loadTuples`
for a structurally malformed relationship. -/
def tupleParseError (msg : String) (t : RelTuple) : DeveloperError :=
  ⟨msg, .RELATIONSHIP, .PARSE_ERROR, 0, 0, t.tupleString⟩

/-- The loop and final batch write of `loadTuples`, with the accumulated
developer errors and pending updates as explicit state. A malformed
relationship records one developer error and the scan continues; a
write-simulation failure is classified via `distinguishGraphError` — a
developer classification records the error and continues, otherwise the
function returns the infrastructural error immediately and the batch write
never happens. When the scan completes, the pending updates are written to
the transaction in one batch. Returns (developer errors, infrastructural
error, relationships written to the transaction). -/
def loadTuplesFrom : List RelTuple → List DeveloperError → List RelTuple →
    List DeveloperError × Option RewrittenError × List RelTuple
  | [], devErrors, updates => (devErrors, none, updates)
  | t :: rest, devErrors, updates =>
    match t.validateResult with
    | some verr => loadTuplesFrom rest (devErrors ++ [tupleParseError verr t]) updates
    | none =>
      match t.writeResult with
      | none => loadTuplesFrom rest devErrors (updates ++ [t])
      | some gerr =>
        match distinguishGraphError gerr .RELATIONSHIP 0 0 t.tupleString with
        | (some devErr, _) => loadTuplesFrom rest (devErrors ++ [devErr]) updates
        | (none, wireErr) => (devErrors, wireErr, [])

/-- `loadTuples`: loads the test relationships into the transaction (see
`loadTuplesFrom`). -/
def loadTuples (tuples : List RelTuple) :
    List DeveloperError × Option RewrittenError × List RelTuple :=
  loadTuplesFrom tuples [] []

/-- The outcome of `CompileSchema` (external compiler): the compiled
schema, or a single developer error, or an infrastructural error. -/
structure CompileResult where
  compiled : CompiledSchema
  devError : Option DeveloperError
  err : Option String
deriving DecidableEq, Repr

/-- `devinterface.RequestContext`: the schema (with its compile outcome),
the test relationships, and the oracle outcome of the final
`requestContext.Validate()` envelope check. -/
structure RequestContext where
  Schema : CompileResult
  Relationships : List RelTuple
  validateResult : Option String
deriving DecidableEq, Repr

/-- The contents of the fresh in-memory datastore after the build: what the
committed transaction persisted (empty when the transaction aborted or was
never opened). -/
structure DatastoreState where
  caveats : List CaveatDef
  namespaces : List NamespaceDef
  relationships : List RelTuple
deriving DecidableEq, Repr

/-- The empty fresh datastore. -/
def emptyDatastore : DatastoreState := ⟨[], [], []⟩

/-- The infrastructural (non-developer) errors `NewDevContext` can
return: a wire error from relationship loading, a failed final request
validation, or a failure closing the datastore. -/
inductive InfraError where
  | compileFailed (msg : String)
  | wire (e : RewrittenError)
  | validateFailed (msg : String)
  | closeFailed (msg : String)
deriving DecidableEq, Repr

/-- `DevContext`: the ready-to-query sandbox (the compiled schema is the
component relevant to this model; the dispatcher and datastore handles are
modelled separately for disposal). -/
structure DevContext where
  CompiledSchema : CompiledSchema
deriving DecidableEq, Repr

/-- The outcome of `newDevContextWithDatastore`: the sandbox, the developer
errors (`some` models a non-nil `*devinterface.DeveloperErrors`, whose
inner list may be empty), the infrastructural error, and the datastore
contents after the transaction. -/
structure BuildResult where
  devctx : Option DevContext
  devErrs : Option (List DeveloperError)
  err : Option InfraError
  datastore : DatastoreState
deriving DecidableEq, Repr

/-- `newDevContextWithDatastore`: compiles the schema (short-circuiting on
a compile failure), then in one read-write transaction loads the compiled
schema and then the test relationships; the transaction function returns
an error — aborting the transaction — only for an infrastructural error,
so the transaction commits whenever only developer errors accumulated.
Finally validates the request envelope and constructs the DevContext. -/
def newDevContextWithDatastore (rc : RequestContext) : BuildResult :=
  match rc.Schema.err with
  | some e => ⟨none, none, some (.compileFailed e), emptyDatastore⟩
  | none =>
  match rc.Schema.devError with
  | some d => ⟨none, some [d], none, emptyDatastore⟩
  | none =>
    let lc := loadCompiled rc.Schema.compiled
    if lc.1 ≠ [] then
      ⟨none, some lc.1, none, ⟨lc.2.1, lc.2.2, []⟩⟩
    else
      let lt := loadTuples rc.Relationships
      match lt.2.1 with
      | some w => ⟨none, some lt.1, some (.wire w), emptyDatastore⟩
      | none =>
        if lt.1 ≠ [] then
          ⟨none, some lt.1, none, ⟨lc.2.1, lc.2.2, lt.2.2⟩⟩
        else
          match rc.validateResult with
          | some v =>
            ⟨none, none, some (.validateFailed v), ⟨lc.2.1, lc.2.2, lt.2.2⟩⟩
          | none =>
            ⟨some ⟨rc.Schema.compiled⟩, none, none, ⟨lc.2.1, lc.2.2, lt.2.2⟩⟩

/-- The outcome of `NewDevContext`: the returned triple, whether the fresh
datastore was closed before returning, and the datastore contents. -/
structure NewDevContextResult where
  devctx : Option DevContext
  devErrs : Option (List DeveloperError)
  err : Option InfraError
  dsClosed : Bool
  datastore : DatastoreState
deriving DecidableEq, Repr

/-- `NewDevContext`: creates a fresh in-memory datastore, builds the
sandbox on it, and — whenever any form of error occurred (infrastructural
error or non-nil developer errors) — immediately closes the datastore; a
failure of that close (`closeResult` oracle) is returned alone, replacing
the original outcome. -/
def NewDevContext (rc : RequestContext) (closeResult : Option String) :
    NewDevContextResult :=
  let b := newDevContextWithDatastore rc
  if b.err.isSome ∨ b.devErrs.isSome then
    match closeResult with
    | some cerr => ⟨none, none, some (.closeFailed cerr), true, b.datastore⟩
    | none => ⟨b.devctx, b.devErrs, b.err, true, b.datastore⟩
  else
    ⟨b.devctx, none, none, false, b.datastore⟩

/-! ### Disposal (`DevContext.Dispose`) -/

/-- The observable actions of `Dispose`: closing each handle and logging a
close failure. -/
inductive DisposeEvent where
  | closeDispatcher
  | logDispatcherError (msg : String)
  | closeDatastore
  | logDatastoreError (msg : String)
deriving DecidableEq, Repr

/-- The two handles owned by a DevContext, as seen by `Dispose`: `none`
models a nil handle; `some r` models a present handle whose `Close()`
returns `r` (`none` = clean close). -/
structure DevContextHandles where
  Dispatcher : Option (Option String)
  Datastore : Option (Option String)
deriving DecidableEq, Repr

/-- `DevContext.Dispose`: returns early on a nil dispatcher; otherwise
closes the dispatcher (logging, not propagating, any close error), then —
unless the datastore handle is nil — closes the datastore likewise. The
second component is the error propagated to the caller (always `none`:
`Dispose` has no error result). -/
def Dispose (dc : DevContextHandles) : List DisposeEvent × Option String :=
  match dc.Dispatcher with
  | none => ([], none)
  | some dres =>
    let evs1 := [DisposeEvent.closeDispatcher] ++
      (match dres with
       | some m => [DisposeEvent.logDispatcherError m]
       | none => [])
    match dc.Datastore with
    | none => (evs1, none)
    | some sres =>
      (evs1 ++ [DisposeEvent.closeDatastore] ++
        (match sres with
         | some m => [DisposeEvent.logDatastoreError m]
         | none => []), none)

/-! ## Theorems -/

/-- C4: for every dispatch error of the known category set,
`distinguishGraphError` returns exactly one of a developer error or an
infrastructural error — never both, never neither; the developer-error
categories are precisely max-depth, unknown namespace, unknown relation and
invalid relation reference, checked first-match-wins; and for the
recursion/depth-limit error the returned developer error's kind is
MAXIMUM_RECURSION. -/
theorem classifier_totality (e : GraphError) (source : DeveloperErrorSource)
    (line column : Nat) (ctx : String) :
    (((distinguishGraphError e source line column ctx).1.isSome = true ∧
      (distinguishGraphError e source line column ctx).2 = none) ∨
     ((distinguishGraphError e source line column ctx).1 = none ∧
      (distinguishGraphError e source line column ctx).2.isSome = true)) ∧
    ¬((distinguishGraphError e source line column ctx).1.isSome = true ∧
      (distinguishGraphError e source line column ctx).2.isSome = true) ∧
    ((distinguishGraphError e source line column ctx).1.isSome = true ↔
      (e = .maxDepth ∨ (∃ n, e = .unknownNamespace n) ∨
       (∃ n, e = .unknownRelation n) ∨ (∃ m, e = .invalidRelation m))) ∧
    (e = .maxDepth →
      (distinguishGraphError e source line column ctx).1 =
        some ⟨e.message, source, .MAXIMUM_RECURSION, line, column, ctx⟩) := by
  cases e <;> simp [distinguishGraphError, rewriteACLError]

/-- C4 witness: the classifier applied to the recursion-limit error at a
concrete call site. -/
theorem classifier_totality_witness :
    (((distinguishGraphError .maxDepth .RELATIONSHIP 3 7 "tpl").1.isSome = true ∧
      (distinguishGraphError .maxDepth .RELATIONSHIP 3 7 "tpl").2 = none) ∨
     ((distinguishGraphError .maxDepth .RELATIONSHIP 3 7 "tpl").1 = none ∧
      (distinguishGraphError .maxDepth .RELATIONSHIP 3 7 "tpl").2.isSome = true)) ∧
    ¬((distinguishGraphError .maxDepth .RELATIONSHIP 3 7 "tpl").1.isSome = true ∧
      (distinguishGraphError .maxDepth .RELATIONSHIP 3 7 "tpl").2.isSome = true) ∧
    ((distinguishGraphError .maxDepth .RELATIONSHIP 3 7 "tpl").1.isSome = true ↔
      ((.maxDepth : GraphError) = .maxDepth ∨
       (∃ n, (.maxDepth : GraphError) = .unknownNamespace n) ∨
       (∃ n, (.maxDepth : GraphError) = .unknownRelation n) ∨
       (∃ m, (.maxDepth : GraphError) = .invalidRelation m))) ∧
    ((.maxDepth : GraphError) = .maxDepth →
      (distinguishGraphError .maxDepth .RELATIONSHIP 3 7 "tpl").1 =
        some ⟨GraphError.maxDepth.message, .RELATIONSHIP, .MAXIMUM_RECURSION, 3, 7, "tpl"⟩) :=
  classifier_totality .maxDepth .RELATIONSHIP 3 7 "tpl"

/-- C8: `Dispose` never propagates an error to the caller (in particular it
does not fail when the dispatcher or the datastore handle is nil), and when
both handles are present it closes the dispatcher first and then the
datastore — both of them regardless of whether either close fails, with
each close failure logged. -/
theorem dispose_safety (dc : DevContextHandles) :
    (Dispose dc).2 = none ∧
    (∀ dres sres, dc.Dispatcher = some dres → dc.Datastore = some sres →
      (Dispose dc).1 =
        DisposeEvent.closeDispatcher ::
          ((match dres with
            | some m => [DisposeEvent.logDispatcherError m]
            | none => []) ++
           DisposeEvent.closeDatastore ::
             (match sres with
              | some m => [DisposeEvent.logDatastoreError m]
              | none => []))) := by
  obtain ⟨d, s⟩ := dc
  constructor
  · cases d <;> cases s <;> simp [Dispose]
  · intro dres sres hd hs
    cases hd
    cases hs
    cases dres <;> cases sres <;> simp [Dispose]

/-- C8 witness: disposing a sandbox whose two present handles both fail to
close still closes both in order and propagates nothing. -/
theorem dispose_safety_witness :
    (Dispose ⟨some (some "dispatcher boom"), some (some "datastore boom")⟩).2 = none ∧
    (Dispose ⟨some (some "dispatcher boom"), some (some "datastore boom")⟩).1 =
      DisposeEvent.closeDispatcher ::
        ([DisposeEvent.logDispatcherError "dispatcher boom"] ++
         DisposeEvent.closeDatastore ::
           [DisposeEvent.logDatastoreError "datastore boom"]) := by
  have h := dispose_safety ⟨some (some "dispatcher boom"), some (some "datastore boom")⟩
  exact ⟨h.1, h.2 (some "dispatcher boom") (some "datastore boom") rfl rfl⟩

/-- C9: whenever the build fails — by producing an infrastructural error or
a (non-nil) developer-error list — `NewDevContext` closes the freshly
created datastore before returning, for every close outcome. -/
theorem failed_build_closes_datastore (rc : RequestContext)
    (closeResult : Option String)
    (h : (newDevContextWithDatastore rc).err.isSome = true ∨
         (newDevContextWithDatastore rc).devErrs.isSome = true) :
    (NewDevContext rc closeResult).dsClosed = true := by
  have h' : ((newDevContextWithDatastore rc).err.isSome = true ∨
      (newDevContextWithDatastore rc).devErrs.isSome = true) = True := by
    simp [h]
  cases closeResult <;> simp [NewDevContext, h']

/-- C9 witness: a build that fails with a developer error (compile
failure) closes the datastore. -/
theorem failed_build_closes_datastore_witness :
    ((newDevContextWithDatastore
        ⟨⟨⟨[], []⟩, some ⟨"parse error", .SCHEMA, .PARSE_ERROR, 1, 1, "schema"⟩, none⟩,
         [], none⟩).err.isSome = true ∨
     (newDevContextWithDatastore
        ⟨⟨⟨[], []⟩, some ⟨"parse error", .SCHEMA, .PARSE_ERROR, 1, 1, "schema"⟩, none⟩,
         [], none⟩).devErrs.isSome = true) ∧
    (NewDevContext
        ⟨⟨⟨[], []⟩, some ⟨"parse error", .SCHEMA, .PARSE_ERROR, 1, 1, "schema"⟩, none⟩,
         [], none⟩ none).dsClosed = true := by
  refine ⟨Or.inr (by decide), ?_⟩
  exact failed_build_closes_datastore _ none (Or.inr (by decide))

/-- C10: when the build fails and the subsequent datastore close itself
fails, `NewDevContext` returns only the close error — nil sandbox and nil
developer errors — discarding the accumulated developer errors and the
original error. -/
theorem close_error_replaces_outcome (rc : RequestContext) (cerr : String)
    (h : (newDevContextWithDatastore rc).err.isSome = true ∨
         (newDevContextWithDatastore rc).devErrs.isSome = true) :
    (NewDevContext rc (some cerr)).devctx = none ∧
    (NewDevContext rc (some cerr)).devErrs = none ∧
    (NewDevContext rc (some cerr)).err = some (.closeFailed cerr) := by
  have h' : ((newDevContextWithDatastore rc).err.isSome = true ∨
      (newDevContextWithDatastore rc).devErrs.isSome = true) = True := by
    simp [h]
  simp [NewDevContext, h']

/-- C10 witness: a compile-developer-error build whose datastore close
fails returns only the close error. -/
theorem close_error_replaces_outcome_witness :
    ((newDevContextWithDatastore
        ⟨⟨⟨[], []⟩, some ⟨"parse error", .SCHEMA, .PARSE_ERROR, 1, 1, "schema"⟩, none⟩,
         [], none⟩).err.isSome = true ∨
     (newDevContextWithDatastore
        ⟨⟨⟨[], []⟩, some ⟨"parse error", .SCHEMA, .PARSE_ERROR, 1, 1, "schema"⟩, none⟩,
         [], none⟩).devErrs.isSome = true) ∧
    (NewDevContext
        ⟨⟨⟨[], []⟩, some ⟨"parse error", .SCHEMA, .PARSE_ERROR, 1, 1, "schema"⟩, none⟩,
         [], none⟩ (some "close boom")).devctx = none ∧
    (NewDevContext
        ⟨⟨⟨[], []⟩, some ⟨"parse error", .SCHEMA, .PARSE_ERROR, 1, 1, "schema"⟩, none⟩,
         [], none⟩ (some "close boom")).devErrs = none ∧
    (NewDevContext
        ⟨⟨⟨[], []⟩, some ⟨"parse error", .SCHEMA, .PARSE_ERROR, 1, 1, "schema"⟩, none⟩,
         [], none⟩ (some "close boom")).err = some (.closeFailed "close boom") := by
  refine ⟨Or.inr (by decide), ?_⟩
  exact close_error_replaces_outcome _ "close boom" (Or.inr (by decide))

/-- When every excluded entry is unconditional, collecting the excluded
ONRs succeeds and yields their subjects in order. -/
theorem collectExcludedONRs_eq_map (l : List FoundSubject)
    (h : ∀ e ∈ l, e.caveatExpression = none) :
    collectExcludedONRs l = some (l.map FoundSubject.subject) := by
  induction l with
  | nil => rfl
  | cons e rest ih =>
    have he : e.caveatExpression = none := h e (by simp)
    simp [collectExcludedONRs, he, ih fun x hx => h x (by simp [hx])]

/-- When some excluded entry carries a caveat expression, collecting the
excluded ONRs fails (the Go code panics). -/
theorem collectExcludedONRs_eq_none (l : List FoundSubject)
    (h : ∃ e ∈ l, e.caveatExpression.isSome = true) :
    collectExcludedONRs l = none := by
  induction l with
  | nil => simp at h
  | cons e rest ih =>
    by_cases he : e.caveatExpression.isSome = true
    · simp [collectExcludedONRs, he]
    · have : ∃ x ∈ rest, x.caveatExpression.isSome = true := by
        rcases h with ⟨x, hx, hxs⟩
        rcases List.mem_cons.mp hx with h1 | h2
        · exact absurd (h1 ▸ hxs) he
        · exact ⟨x, h2, hxs⟩
      simp [collectExcludedONRs, he, ih this]

/-- C7: `ExcludedSubjectsFromWildcard` on a wildcard subject all of whose
excluded entries are unconditional returns the excluded subject ONRs with
isWildcard = true; on a non-wildcard subject it returns the empty list with
isWildcard = false; and on a wildcard with any caveated excluded entry it
fails loudly (the "not yet supported" panic, modelled as `none`) rather
than dropping the exclusion. -/
theorem excluded_from_wildcard_contract (fs : FoundSubject) :
    (fs.subject.ObjectId = PublicWildcard →
      (∀ e ∈ fs.excludedSubjects, e.caveatExpression = none) →
      fs.ExcludedSubjectsFromWildcard =
        some (fs.excludedSubjects.map FoundSubject.subject, true)) ∧
    (fs.subject.ObjectId ≠ PublicWildcard →
      fs.ExcludedSubjectsFromWildcard = some ([], false)) ∧
    (fs.subject.ObjectId = PublicWildcard →
      (∃ e ∈ fs.excludedSubjects, e.caveatExpression.isSome = true) →
      fs.ExcludedSubjectsFromWildcard = none) := by
  refine ⟨fun hw hall => ?_, fun hnw => ?_, fun hw hsome => ?_⟩
  · simp [FoundSubject.ExcludedSubjectsFromWildcard, hw,
      collectExcludedONRs_eq_map _ hall]
  · simp [FoundSubject.ExcludedSubjectsFromWildcard, hnw]
  · simp [FoundSubject.ExcludedSubjectsFromWildcard, hw,
      collectExcludedONRs_eq_none _ hsome]

/-- C7 witness: a wildcard with one unconditional exclusion, a non-wildcard
subject, and a wildcard with a caveated exclusion, each at concrete
values. -/
theorem excluded_from_wildcard_contract_witness :
    ((FoundSubject.mk ⟨"user", "*", "..."⟩
        [.mk ⟨"user", "bob", "..."⟩ [] none []] none
        []).ExcludedSubjectsFromWildcard =
      some ([⟨"user", "bob", "..."⟩], true)) ∧
    ((FoundSubject.mk ⟨"user", "tom", "..."⟩ [] none
        []).ExcludedSubjectsFromWildcard = some ([], false)) ∧
    ((FoundSubject.mk ⟨"user", "*", "..."⟩
        [.mk ⟨"user", "bob", "..."⟩ [] (some (.leaf "c")) []] none
        []).ExcludedSubjectsFromWildcard = none) := by
  refine ⟨?_, ?_, ?_⟩
  · exact (excluded_from_wildcard_contract _).1 rfl (by
      intro e he
      simp only [FoundSubject.excludedSubjects, List.mem_singleton] at he
      simp [he, FoundSubject.caveatExpression])
  · exact (excluded_from_wildcard_contract _).2.1 (by
      simp [FoundSubject.subject, PublicWildcard])
  · exact (excluded_from_wildcard_contract _).2.2 rfl (by
      refine ⟨.mk ⟨"user", "bob", "..."⟩ [] (some (.leaf "c")) [], ?_, rfl⟩
      simp [FoundSubject.excludedSubjects])

/-- `sortStrings` produces a lexicographically sorted list. -/
theorem sortStrings_sorted (l : List String) :
    List.Sorted (· ≤ ·) (sortStrings l) :=
  List.sorted_insertionSort _ l

/-- `sortStrings` is invariant under permutation of its input. -/
theorem sortStrings_perm_eq {l1 l2 : List String} (h : l1.Perm l2) :
    sortStrings l1 = sortStrings l2 :=
  List.eq_of_perm_of_sorted
    ((List.perm_insertionSort _ l1).trans
      (h.trans (List.perm_insertionSort _ l2).symm))
    (List.sorted_insertionSort _ l1) (List.sorted_insertionSort _ l2)

/-- The wildcard-with-exclusions rendering equation of
`ToValidationString`, for an unconditional wildcard subject whose excluded
entries are all unconditional. -/
theorem tvs_wildcard_render (s : ObjectAndRelation) (l : List FoundSubject)
    (r : List ObjectAndRelation) (hw : s.ObjectId = PublicWildcard)
    (hne : l ≠ []) (hall : ∀ e ∈ l, e.caveatExpression = none) :
    (FoundSubject.mk s l none r).ToValidationString =
      some (StringONR s ++ " - \x7b" ++
        String.intercalate ", "
          (sortStrings ((l.map FoundSubject.subject).map StringONR)) ++
        "\x7d") := by
  simp [FoundSubject.ToValidationString, FoundSubject.caveatExpression,
    FoundSubject.ExcludedSubjectsFromWildcard, FoundSubject.subject,
    FoundSubject.excludedSubjects, hw, collectExcludedONRs_eq_map _ hall, hne]

/-- C6: `ToValidationString` renders an unconditional FoundSubject without
exclusions as `namespace:objectId#relation`; a wildcard with a non-empty
(unconditional) exclusion set as `namespace:*#relation - \x7bsorted excluded
ONRs\x7d`, the excluded entries sorted lexicographically and independent of
insertion order; and fails (modelled `none`) on any FoundSubject whose
caveatExpression is non-null. -/
theorem to_validation_string_canonical :
    (∀ fs : FoundSubject, fs.caveatExpression = none →
      fs.excludedSubjects = [] →
      fs.ToValidationString = some (StringONR fs.subject)) ∧
    (∀ fs : FoundSubject, fs.caveatExpression = none →
      fs.subject.ObjectId = PublicWildcard → fs.excludedSubjects ≠ [] →
      (∀ e ∈ fs.excludedSubjects, e.caveatExpression = none) →
      fs.ToValidationString = some (StringONR fs.subject ++ " - \x7b" ++
        String.intercalate ", "
          (sortStrings ((fs.excludedSubjects.map FoundSubject.subject).map StringONR)) ++
        "\x7d") ∧
      List.Sorted (· ≤ ·)
        (sortStrings ((fs.excludedSubjects.map FoundSubject.subject).map StringONR))) ∧
    (∀ (s : ObjectAndRelation) (l1 l2 : List FoundSubject)
       (r1 r2 : List ObjectAndRelation), l1.Perm l2 →
      (FoundSubject.mk s l1 none r1).ToValidationString =
        (FoundSubject.mk s l2 none r2).ToValidationString) ∧
    (∀ fs : FoundSubject, fs.caveatExpression.isSome = true →
      fs.ToValidationString = none) := by
  refine ⟨fun fs hc he => ?_, fun fs hc hw hne hall => ?_,
    fun s l1 l2 r1 r2 hp => ?_, fun fs hc => ?_⟩
  · by_cases hw : fs.subject.ObjectId = PublicWildcard
    · simp [FoundSubject.ToValidationString, hc,
        FoundSubject.ExcludedSubjectsFromWildcard, hw, he, collectExcludedONRs]
    · simp [FoundSubject.ToValidationString, hc,
        FoundSubject.ExcludedSubjectsFromWildcard, hw]
  · obtain ⟨s, l, c, r⟩ := fs
    have hc' : c = none := hc
    subst hc'
    exact ⟨tvs_wildcard_render s l r hw hne hall, sortStrings_sorted _⟩
  · by_cases hw : s.ObjectId = PublicWildcard
    · by_cases hcav : ∃ e ∈ l1, e.caveatExpression.isSome = true
      · have hcav2 : ∃ e ∈ l2, e.caveatExpression.isSome = true := by
          rcases hcav with ⟨e, he, hs⟩
          exact ⟨e, hp.mem_iff.mp he, hs⟩
        simp [FoundSubject.ToValidationString, FoundSubject.caveatExpression,
          FoundSubject.ExcludedSubjectsFromWildcard, FoundSubject.subject,
          FoundSubject.excludedSubjects, hw,
          collectExcludedONRs_eq_none _ hcav, collectExcludedONRs_eq_none _ hcav2]
      · have hall1 : ∀ e ∈ l1, e.caveatExpression = none := by
          intro e he
          rcases h : e.caveatExpression with _ | cv
          · rfl
          · exact absurd ⟨e, he, by simp [h]⟩ hcav
        have hall2 : ∀ e ∈ l2, e.caveatExpression = none := fun e he =>
          hall1 e (hp.mem_iff.mpr he)
        by_cases hne : l1 = []
        · have hne2 : l2 = [] := List.Perm.eq_nil (hne ▸ hp).symm
          subst hne
          subst hne2
          rfl
        · have hne2 : l2 ≠ [] := fun h2 => hne (List.Perm.eq_nil (h2 ▸ hp))
          rw [tvs_wildcard_render s l1 r1 hw hne hall1,
            tvs_wildcard_render s l2 r2 hw hne2 hall2,
            sortStrings_perm_eq ((hp.map FoundSubject.subject).map StringONR)]
    · simp [FoundSubject.ToValidationString, FoundSubject.caveatExpression,
        FoundSubject.ExcludedSubjectsFromWildcard, FoundSubject.subject, hw]
  · simp [FoundSubject.ToValidationString, hc]

/-- C6 witness: the rendering evaluated on concrete subjects — a plain
subject, a wildcard whose two exclusions were inserted in reverse
lexicographic order, the same wildcard with the exclusions permuted, and a
caveated subject. -/
theorem to_validation_string_canonical_witness :
    (FoundSubject.mk ⟨"user", "tom", "..."⟩ [] none []).ToValidationString =
      some (StringONR ⟨"user", "tom", "..."⟩) ∧
    (FoundSubject.mk ⟨"user", "*", "..."⟩
        [.mk ⟨"user", "bob", "..."⟩ [] none [],
         .mk ⟨"user", "alice", "..."⟩ [] none []] none
        []).ToValidationString =
      some (StringONR ⟨"user", "*", "..."⟩ ++ " - \x7b" ++
        String.intercalate ", "
          (sortStrings [StringONR ⟨"user", "bob", "..."⟩,
            StringONR ⟨"user", "alice", "..."⟩]) ++ "\x7d") ∧
    (FoundSubject.mk ⟨"user", "*", "..."⟩
        [.mk ⟨"user", "bob", "..."⟩ [] none [],
         .mk ⟨"user", "alice", "..."⟩ [] none []] none []).ToValidationString =
      (FoundSubject.mk ⟨"user", "*", "..."⟩
        [.mk ⟨"user", "alice", "..."⟩ [] none [],
         .mk ⟨"user", "bob", "..."⟩ [] none []] none []).ToValidationString ∧
    (FoundSubject.mk ⟨"user", "tom", "..."⟩ [] (some (.leaf "c"))
        []).ToValidationString = none := by
  refine ⟨to_validation_string_canonical.1 _ rfl rfl, ?_, ?_, ?_⟩
  · have h := (to_validation_string_canonical.2.1
      (FoundSubject.mk ⟨"user", "*", "..."⟩
        [.mk ⟨"user", "bob", "..."⟩ [] none [],
         .mk ⟨"user", "alice", "..."⟩ [] none []] none [])
      rfl rfl (by simp [FoundSubject.excludedSubjects]) (by
        intro e he
        simp only [FoundSubject.excludedSubjects] at he
        rcases List.mem_cons.mp he with h1 | h1
        · subst h1; rfl
        · rcases List.mem_cons.mp h1 with h2 | h2
          · subst h2; rfl
          · exact absurd h2 (List.not_mem_nil _))).1
    simpa [FoundSubject.excludedSubjects, FoundSubject.subject] using h
  · exact to_validation_string_canonical.2.2.1 _ _ _ _ _ (List.Perm.swap _ _ [])
  · exact to_validation_string_canonical.2.2.2 _ rfl

/-- Structural equality of ONRs is componentwise. -/
theorem onr_eq_iff (x y : ObjectAndRelation) :
    x = y ↔ (x.Namespace = y.Namespace ∧ x.ObjectId = y.ObjectId ∧
      x.Relation = y.Relation) := by
  cases x; cases y; simp

/-- Two FoundSubjects occupy the same tracked entry exactly when their
identity keys agree. -/
theorem sameTrackedEntry_iff_key (x y : FoundSubject) :
    sameTrackedEntry x y ↔ trackedKey x = trackedKey y := by
  by_cases hk : trackedKey x = trackedKey y <;>
    simp [sameTrackedEntry, TrackingSubjectSet.add, hk]

/-- C3: two FoundSubjects are the same entry of the Subject Tracking Set
exactly when their `subject` fields are structurally equal as full ONR
triples — equivalently when namespace, `GetSubjectId` (the objectId
component) and relation all agree — and the identity key is insensitive to
`excludedSubjects`, `caveatExpression` and `relationships`; lookup likewise
matches on full subject equality. -/
theorem subject_key_is_full_onr (a b : FoundSubject) :
    (sameTrackedEntry a b ↔ a.subject = b.subject) ∧
    (sameTrackedEntry a b ↔
      (a.subject.Namespace = b.subject.Namespace ∧
       a.GetSubjectId = b.GetSubjectId ∧
       a.subject.Relation = b.subject.Relation)) ∧
    (∀ exs cav rels,
      sameTrackedEntry a (.mk b.subject exs cav rels) ↔ sameTrackedEntry a b) ∧
    (∀ onr, TrackingSubjectSet.get [a] onr = some a ↔ a.subject = onr) := by
  have hcomp : ∀ x y : FoundSubject, trackedKey x = trackedKey y ↔
      (x.subject.Namespace = y.subject.Namespace ∧
       x.GetSubjectId = y.GetSubjectId ∧
       x.subject.Relation = y.subject.Relation) := by
    intro x y
    simp [trackedKey, Prod.ext_iff]
  refine ⟨?_, ?_, ?_, ?_⟩
  · rw [sameTrackedEntry_iff_key, hcomp, onr_eq_iff]
    simp [FoundSubject.GetSubjectId]
  · rw [sameTrackedEntry_iff_key, hcomp]
  · intro exs cav rels
    rw [sameTrackedEntry_iff_key, sameTrackedEntry_iff_key, hcomp, hcomp]
    simp [FoundSubject.GetSubjectId, FoundSubject.subject]
  · intro onr
    constructor
    · intro h
      by_cases he : a.subject = onr
      · exact he
      · simp [TrackingSubjectSet.get, he] at h
    · intro he
      simp [TrackingSubjectSet.get, he]

/-- C3 witness: two FoundSubjects agreeing on the full subject triple but
differing in caveat and relationships share an entry; changing any one of
the three subject components separates them. -/
theorem subject_key_is_full_onr_witness :
    sameTrackedEntry
      (.mk ⟨"user", "tom", "..."⟩ [] none [])
      (.mk ⟨"user", "tom", "..."⟩ [] (some (.leaf "c")) [⟨"doc", "d1", "viewer"⟩]) ∧
    ¬sameTrackedEntry
      (.mk ⟨"user", "tom", "..."⟩ [] none [])
      (.mk ⟨"group", "tom", "..."⟩ [] none []) ∧
    ¬sameTrackedEntry
      (.mk ⟨"user", "tom", "..."⟩ [] none [])
      (.mk ⟨"user", "amy", "..."⟩ [] none []) ∧
    ¬sameTrackedEntry
      (.mk ⟨"user", "tom", "..."⟩ [] none [])
      (.mk ⟨"user", "tom", "member"⟩ [] none []) := by
  refine ⟨?_, ?_, ?_, ?_⟩
  · exact (subject_key_is_full_onr
      (.mk ⟨"user", "tom", "..."⟩ [] none [])
      (.mk ⟨"user", "tom", "..."⟩ [] (some (.leaf "c"))
        [⟨"doc", "d1", "viewer"⟩])).1.mpr rfl
  · intro h
    exact absurd ((subject_key_is_full_onr _ _).1.mp h) (by decide)
  · intro h
    exact absurd ((subject_key_is_full_onr _ _).1.mp h) (by decide)
  · intro h
    exact absurd ((subject_key_is_full_onr _ _).1.mp h) (by decide)

/-- C5: merging two FoundSubjects of the same wildcard subject key in the
Subject Tracking Set intersects the exclusion sets by subject identity (a
subject stays excluded only if both derivations excluded it) and ORs the
caveat expressions, with null (unconditional) dominating: if either input
is unconditional the merge is unconditional. -/
theorem wildcard_merge_semantics (a b : FoundSubject)
    (hsub : a.subject = b.subject)
    (hw : a.subject.ObjectId = PublicWildcard) :
    (TrackingSubjectSet.add (TrackingSubjectSet.add [] a) b =
      [mergeFoundSubjects a b]) ∧
    (∀ x, x ∈ (mergeFoundSubjects a b).excludedSubjects ↔
      (x ∈ a.excludedSubjects ∧
       ∃ y ∈ b.excludedSubjects, y.subject = x.subject)) ∧
    ((mergeFoundSubjects a b).caveatExpression = none ↔
      (a.caveatExpression = none ∨ b.caveatExpression = none)) ∧
    (∀ ca cb, a.caveatExpression = some ca → b.caveatExpression = some cb →
      (mergeFoundSubjects a b).caveatExpression = some (.or ca cb)) := by
  obtain ⟨sa, ea, ca0, ra⟩ := a
  obtain ⟨sb, eb, cb0, rb⟩ := b
  have hs : sa = sb := hsub
  subst hs
  have hk : trackedKey (.mk sa ea ca0 ra) = trackedKey (.mk sa eb cb0 rb) := by
    simp [trackedKey, FoundSubject.GetSubjectId, FoundSubject.subject]
  refine ⟨?_, ?_, ?_, ?_⟩
  · simp [TrackingSubjectSet.add, hk]
  · intro x
    simp [mergeFoundSubjects, FoundSubject.excludedSubjects, FoundSubject.subject,
      intersectExcluded, List.mem_filter, List.any_eq_true]
  · cases ca0 <;> cases cb0 <;>
      simp [mergeFoundSubjects, FoundSubject.caveatExpression, caveatOr]
  · intro ca cb ha hb
    have h1 : ca0 = some ca := ha
    have h2 : cb0 = some cb := hb
    subst h1
    subst h2
    rfl

/-- C5 witness: two wildcard findings — one conditional excluding bob and
amy, one unconditional excluding bob — merge into an unconditional wildcard
excluding only bob (the intersection). -/
theorem wildcard_merge_semantics_witness :
    (TrackingSubjectSet.add
      (TrackingSubjectSet.add []
        (.mk ⟨"user", "*", "..."⟩
          [.mk ⟨"user", "bob", "..."⟩ [] none [],
           .mk ⟨"user", "amy", "..."⟩ [] none []] (some (.leaf "c1")) []))
      (.mk ⟨"user", "*", "..."⟩ [.mk ⟨"user", "bob", "..."⟩ [] none []] none []) =
      [mergeFoundSubjects
        (.mk ⟨"user", "*", "..."⟩
          [.mk ⟨"user", "bob", "..."⟩ [] none [],
           .mk ⟨"user", "amy", "..."⟩ [] none []] (some (.leaf "c1")) [])
        (.mk ⟨"user", "*", "..."⟩ [.mk ⟨"user", "bob", "..."⟩ [] none []] none [])]) ∧
    ((FoundSubject.mk ⟨"user", "bob", "..."⟩ [] none []) ∈
      (mergeFoundSubjects
        (.mk ⟨"user", "*", "..."⟩
          [.mk ⟨"user", "bob", "..."⟩ [] none [],
           .mk ⟨"user", "amy", "..."⟩ [] none []] (some (.leaf "c1")) [])
        (.mk ⟨"user", "*", "..."⟩
          [.mk ⟨"user", "bob", "..."⟩ [] none []] none [])).excludedSubjects ↔
      ((FoundSubject.mk ⟨"user", "bob", "..."⟩ [] none []) ∈
        (FoundSubject.mk ⟨"user", "*", "..."⟩
          [.mk ⟨"user", "bob", "..."⟩ [] none [],
           .mk ⟨"user", "amy", "..."⟩ [] none []] (some (.leaf "c1")) []).excludedSubjects ∧
       ∃ y ∈ (FoundSubject.mk ⟨"user", "*", "..."⟩
          [.mk ⟨"user", "bob", "..."⟩ [] none []] none []).excludedSubjects,
         y.subject = (FoundSubject.mk ⟨"user", "bob", "..."⟩ [] none []).subject)) ∧
    ((mergeFoundSubjects
        (.mk ⟨"user", "*", "..."⟩
          [.mk ⟨"user", "bob", "..."⟩ [] none [],
           .mk ⟨"user", "amy", "..."⟩ [] none []] (some (.leaf "c1")) [])
        (.mk ⟨"user", "*", "..."⟩
          [.mk ⟨"user", "bob", "..."⟩ [] none []] none [])).caveatExpression = none ↔
      ((FoundSubject.mk ⟨"user", "*", "..."⟩
          [.mk ⟨"user", "bob", "..."⟩ [] none [],
           .mk ⟨"user", "amy", "..."⟩ [] none []]
          (some (.leaf "c1")) []).caveatExpression = none ∨
       (FoundSubject.mk ⟨"user", "*", "..."⟩
          [.mk ⟨"user", "bob", "..."⟩ [] none []] none []).caveatExpression = none)) := by
  have h := wildcard_merge_semantics
    (.mk ⟨"user", "*", "..."⟩
      [.mk ⟨"user", "bob", "..."⟩ [] none [],
       .mk ⟨"user", "amy", "..."⟩ [] none []] (some (.leaf "c1")) [])
    (.mk ⟨"user", "*", "..."⟩ [.mk ⟨"user", "bob", "..."⟩ [] none []] none [])
    rfl rfl
  exact ⟨h.1, h.2.1 _, h.2.2.1⟩

/-- The developer error `loadTuples` records for a relationship, if any:
the PARSE_ERROR for a structurally malformed one. -/
def parseErrOf (t : RelTuple) : Option DeveloperError :=
  t.validateResult.map fun v => tupleParseError v t

/-- When no relationship fails the write-time simulation, `loadTuplesFrom`
records one parse error per malformed relationship, returns no
infrastructural error, and batch-writes exactly the well-formed
relationships. -/
theorem loadTuplesFrom_no_wire (l : List RelTuple) (acc : List DeveloperError)
    (ups : List RelTuple) (hw : ∀ t ∈ l, t.writeResult = none) :
    loadTuplesFrom l acc ups =
      (acc ++ l.filterMap parseErrOf, none,
       ups ++ l.filter fun t => t.validateResult.isNone) := by
  induction l generalizing acc ups with
  | nil => simp [loadTuplesFrom]
  | cons t rest ih =>
    have hwt : t.writeResult = none := hw t (by simp)
    have hrest : ∀ x ∈ rest, x.writeResult = none := fun x hx =>
      hw x (by simp [hx])
    cases hvt : t.validateResult with
    | some v =>
      simp [loadTuplesFrom, hvt, ih _ _ hrest, parseErrOf,
        List.filterMap_cons, List.filter_cons]
    | none =>
      simp [loadTuplesFrom, hvt, hwt, ih _ _ hrest,
        List.filterMap_cons, List.filter_cons, parseErrOf]

/-- One recorded parse error per malformed relationship. -/
theorem length_filterMap_parseErr (l : List RelTuple) :
    (l.filterMap parseErrOf).length =
      (l.filter fun t => t.validateResult.isSome).length := by
  induction l with
  | nil => rfl
  | cons t rest ih =>
    cases hv : t.validateResult <;>
      simp [parseErrOf, hv, List.filterMap_cons, List.filter_cons, ih]

/-- The first test relationship of the C1 scenario: well-formed. -/
def relFirst : RelTuple := ⟨"document:firstdoc#viewer@user:alice", none, none⟩

/-- The second test relationship of the C1 scenario: structurally
malformed (its `Validate()` fails). -/
def relMalformed : RelTuple := ⟨"somebadrel", some "error parsing relationship", none⟩

/-- The third test relationship of the C1 scenario: well-formed. -/
def relThird : RelTuple := ⟨"document:firstdoc#viewer@user:carol", none, none⟩

/-- The C1 scenario request: an empty (error-free) schema and three
relationships of which the second is malformed. -/
def rcRelBatch : RequestContext :=
  ⟨⟨⟨[], []⟩, none, none⟩, [relFirst, relMalformed, relThird], none⟩

/-- C1 counterexample: with three relationships whose second is malformed,
the build returns exactly one developer error (for the second), yet the
first and third relationships ARE batch-written and the transaction
commits — the committed datastore holds them — contradicting the claim
that the batch write is skipped and the transaction abandoned. -/
theorem relationship_batch_counterexample :
    (newDevContextWithDatastore rcRelBatch).devErrs =
      some [tupleParseError "error parsing relationship" relMalformed] ∧
    (newDevContextWithDatastore rcRelBatch).datastore.relationships =
      [relFirst, relThird] ∧
    (newDevContextWithDatastore rcRelBatch).datastore.relationships ≠ [] := by
  refine ⟨rfl, rfl, by decide⟩

/-- C1 amended: for a build whose schema loads cleanly and whose
relationships all pass the write-time simulation, with at least one
structurally malformed relationship, the build returns exactly one
developer error per malformed relationship (and no sandbox and no
infrastructural error) — but the batch write is NOT skipped: the
well-formed relationships are written and the transaction commits; the
populated datastore is then closed by `NewDevContext`. -/
theorem relationship_batch_amended (rc : RequestContext)
    (hcerr : rc.Schema.err = none) (hcdev : rc.Schema.devError = none)
    (hschema : (loadCompiled rc.Schema.compiled).1 = [])
    (hw : ∀ t ∈ rc.Relationships, t.writeResult = none)
    (hbad : ∃ t ∈ rc.Relationships, t.validateResult.isSome = true) :
    (newDevContextWithDatastore rc).devErrs =
      some (rc.Relationships.filterMap parseErrOf) ∧
    (rc.Relationships.filterMap parseErrOf).length =
      (rc.Relationships.filter fun t => t.validateResult.isSome).length ∧
    rc.Relationships.filterMap parseErrOf ≠ [] ∧
    (newDevContextWithDatastore rc).datastore.relationships =
      (rc.Relationships.filter fun t => t.validateResult.isNone) ∧
    (newDevContextWithDatastore rc).err = none ∧
    (newDevContextWithDatastore rc).devctx = none ∧
    (NewDevContext rc none).dsClosed = true := by
  have hlt := loadTuplesFrom_no_wire rc.Relationships [] [] hw
  have hne : rc.Relationships.filterMap parseErrOf ≠ [] := by
    intro h
    rcases hbad with ⟨t, ht, hts⟩
    have hnone := List.filterMap_eq_nil_iff.mp h t ht
    simp only [parseErrOf, Option.map_eq_none'] at hnone
    rw [hnone] at hts
    simp at hts
  refine ⟨?_, length_filterMap_parseErr _, hne, ?_, ?_, ?_, ?_⟩ <;>
    simp [newDevContextWithDatastore, NewDevContext, hcerr, hcdev, hschema,
      loadTuples, hlt, hne]

/-- C1 amended witness: the amended behavior at the concrete three
relationship scenario. -/
theorem relationship_batch_amended_witness :
    (newDevContextWithDatastore rcRelBatch).devErrs =
      some (rcRelBatch.Relationships.filterMap parseErrOf) ∧
    (rcRelBatch.Relationships.filterMap parseErrOf).length =
      (rcRelBatch.Relationships.filter fun t => t.validateResult.isSome).length ∧
    rcRelBatch.Relationships.filterMap parseErrOf ≠ [] ∧
    (newDevContextWithDatastore rcRelBatch).datastore.relationships =
      (rcRelBatch.Relationships.filter fun t => t.validateResult.isNone) ∧
    (newDevContextWithDatastore rcRelBatch).err = none ∧
    (newDevContextWithDatastore rcRelBatch).devctx = none ∧
    (NewDevContext rcRelBatch none).dsClosed = true :=
  relationship_batch_amended rcRelBatch rfl rfl rfl
    (by decide) ⟨relMalformed, by decide, by decide⟩

/-- The caveat loop records one developer error per invalid caveat and
writes exactly the valid caveats, in order. -/
theorem loadCaveats_spec (l : List CaveatDef) :
    (loadCaveats l).1 =
      (l.filterMap fun c => c.validationResult.map fun e => schemaDevError e c.Name) ∧
    (loadCaveats l).2 = (l.filter fun c => c.validationResult.isNone) := by
  induction l with
  | nil => exact ⟨rfl, rfl⟩
  | cons c rest ih =>
    cases hv : c.validationResult <;>
      simp [loadCaveats, hv, List.filterMap_cons, List.filter_cons, ih.1, ih.2]

/-- The developer error `loadCompiled` records for a namespace definition,
if any: the type-system construction failure, else the validation
failure. -/
def nsErrOf (ns : NamespaceDef) : Option DeveloperError :=
  match ns.typeSystemResult with
  | some e => some (schemaDevError e ns.Name)
  | none => ns.validationResult.map fun e => schemaDevError e ns.Name

/-- The namespace loop records one developer error per invalid namespace
and writes exactly the fully valid namespaces, in order. -/
theorem loadNamespaces_spec (l : List NamespaceDef) :
    (loadNamespaces l).1 = l.filterMap nsErrOf ∧
    (loadNamespaces l).2 =
      (l.filter fun ns => ns.typeSystemResult.isNone && ns.validationResult.isNone) := by
  induction l with
  | nil => exact ⟨rfl, rfl⟩
  | cons ns rest ih =>
    cases ht : ns.typeSystemResult with
    | some e =>
      simp [loadNamespaces, ht, nsErrOf, List.filterMap_cons, List.filter_cons, ih.1, ih.2]
    | none =>
      cases hv : ns.validationResult <;>
        simp [loadNamespaces, ht, hv, nsErrOf, List.filterMap_cons,
          List.filter_cons, ih.1, ih.2]

/-- The valid namespace definition of the C2 scenario. -/
def nsValid : NamespaceDef := ⟨"user", none, none⟩

/-- The invalid namespace definition of the C2 scenario: its type-system
validation fails. -/
def nsInvalid : NamespaceDef :=
  ⟨"resource", none, some ⟨"relation/permission not found", none⟩⟩

/-- The C2 scenario request: a schema compiling to one valid and one
invalid namespace definition, no relationships. -/
def rcSchemaPair : RequestContext :=
  ⟨⟨⟨[], [nsValid, nsInvalid]⟩, none, none⟩, [], none⟩

/-- C2 counterexample: with one valid and one invalid namespace
definition, the build returns a non-empty developer-error list (the true
half of the claim), yet the valid namespace IS persisted: the transaction
function returns nil on accumulated developer errors, so the transaction
commits with the valid definition written — contradicting "no namespace
(valid or invalid) is persisted". -/
theorem sandbox_abort_counterexample :
    (newDevContextWithDatastore rcSchemaPair).devErrs =
      some [schemaDevError ⟨"relation/permission not found", none⟩ "resource"] ∧
    (newDevContextWithDatastore rcSchemaPair).datastore.namespaces = [nsValid] ∧
    (newDevContextWithDatastore rcSchemaPair).datastore.namespaces ≠ [] := by
  refine ⟨rfl, rfl, by decide⟩

/-- C2 amended: for a build whose schema compiles but yields at least one
caveat/namespace validation error, the build returns the non-empty
developer-error list and no sandbox — but the transaction is NOT aborted:
it commits, persisting exactly the definitions that validated successfully
(and no relationships, since relationship loading is skipped); the
populated datastore is then closed by `NewDevContext`. -/
theorem sandbox_abort_amended (rc : RequestContext)
    (hcerr : rc.Schema.err = none) (hcdev : rc.Schema.devError = none)
    (hbad : (loadCompiled rc.Schema.compiled).1 ≠ []) :
    (newDevContextWithDatastore rc).devErrs =
      some (loadCompiled rc.Schema.compiled).1 ∧
    (newDevContextWithDatastore rc).devctx = none ∧
    (newDevContextWithDatastore rc).err = none ∧
    (newDevContextWithDatastore rc).datastore.caveats =
      (rc.Schema.compiled.CaveatDefinitions.filter fun c => c.validationResult.isNone) ∧
    (newDevContextWithDatastore rc).datastore.namespaces =
      (rc.Schema.compiled.ObjectDefinitions.filter fun ns =>
        ns.typeSystemResult.isNone && ns.validationResult.isNone) ∧
    (newDevContextWithDatastore rc).datastore.relationships = [] ∧
    (NewDevContext rc none).dsClosed = true := by
  have hmain : newDevContextWithDatastore rc =
      ⟨none, some (loadCompiled rc.Schema.compiled).1, none,
       ⟨(loadCompiled rc.Schema.compiled).2.1,
        (loadCompiled rc.Schema.compiled).2.2, []⟩⟩ := by
    rw [newDevContextWithDatastore, hcerr, hcdev]
    dsimp only
    rw [if_pos hbad]
  refine ⟨?_, ?_, ?_, ?_, ?_, ?_, ?_⟩
  · rw [hmain]
  · rw [hmain]
  · rw [hmain]
  · rw [hmain]
    simp [loadCompiled, (loadCaveats_spec _).2]
  · rw [hmain]
    simp [loadCompiled, (loadNamespaces_spec _).2]
  · rw [hmain]
  · simp [NewDevContext, hmain]

/-- C2 amended witness: the amended behavior at the concrete
one-valid-one-invalid namespace scenario. -/
theorem sandbox_abort_amended_witness :
    (newDevContextWithDatastore rcSchemaPair).devErrs =
      some (loadCompiled rcSchemaPair.Schema.compiled).1 ∧
    (newDevContextWithDatastore rcSchemaPair).devctx = none ∧
    (newDevContextWithDatastore rcSchemaPair).err = none ∧
    (newDevContextWithDatastore rcSchemaPair).datastore.caveats =
      (rcSchemaPair.Schema.compiled.CaveatDefinitions.filter fun c =>
        c.validationResult.isNone) ∧
    (newDevContextWithDatastore rcSchemaPair).datastore.namespaces =
      (rcSchemaPair.Schema.compiled.ObjectDefinitions.filter fun ns =>
        ns.typeSystemResult.isNone && ns.validationResult.isNone) ∧
    (newDevContextWithDatastore rcSchemaPair).datastore.relationships = [] ∧
    (NewDevContext rcSchemaPair none).dsClosed = true :=
  sandbox_abort_amended rcSchemaPair rfl rfl (by decide)

end SpiceDB
